import Mathlib

/-!
# SPI character-device shim (`spi.c`, `spi.h`)

A shallow embedding of the five functions of `spi.c` and a verification of the
behaviour the specification attributes to them.

* The operating system is an arbitrary deterministic mock (`Env`): the value a
  system call returns may depend on the call and on the whole history of calls.
* Every system call is appended to a trace (`World.trace`) together with the
  value it returned, so "which calls were issued, in which order, with which
  arguments" is a statement about that trace.
* Memory is a list of disjoint objects (blocks).  A pointer is a block index
  and an offset, an access outside the storage of its block is a fault,
  reported as `Except.error`.
* What a write past the end of an automatic array does is left to the
  implementation by C.  The environment fixes it (`Env.slack`): the storage
  reserved for an array of `n` bytes has `n + slack n` bytes.  With no slack
  every such write is trapped (a bounds-checking build), with the padding of an
  ordinary build the write lands in the padding and the run goes on.
* `unsigned int` values are naturals below `2 ^ 32`, `int` values are integers,
  conversions between them are written out.
-/

namespace Spi

/-! ## Machine integers -/

/-- Conversion `unsigned int -> int` (32 bits, wrapping), as performed
when an `unsigned int` descriptor is passed to `ioctl`, `write` or `close`. -/
def int_of_uint (u : Nat) : Int :=
  if u % 2 ^ 32 < 2 ^ 31 then ((u % 2 ^ 32 : Nat) : Int)
  else ((u % 2 ^ 32 : Nat) : Int) - 2 ^ 32

/-- Conversion `int -> unsigned int` (reduction modulo `2 ^ 32`), as performed
when the `int` returned by `spi_init` is passed to an `unsigned int`
parameter. -/
def uint_of_int (i : Int) : Nat := (i % 2 ^ 32).toNat

/-- Conversion of the `ssize_t` returned by `write` to the `int` returned by
`spi_write_byte_data` (keeps the low 32 bits, wrapping). -/
def int_of_ssize (r : Int) : Int := int_of_uint (r % 2 ^ 32).toNat

/-- The value of `sizeof(unsigned int)`, hence of `sizeof(send_buf_len)`. -/
def sizeof_unsigned_int : Nat := 4

/-! ## Constants of `spi.h` and of the headers it includes -/

/-- Flag `O_RDWR` of `<fcntl.h>`. -/
def O_RDWR : Nat := 2

/-- Mode bit `SPI_CPHA` of `<linux/spi/spidev.h>`. -/
def SPI_CPHA : Nat := 1
/-- Mode bit `SPI_CPOL` of `<linux/spi/spidev.h>`. -/
def SPI_CPOL : Nat := 2
def SPI_MODE_0 : Nat := 0 ||| 0
def SPI_MODE_1 : Nat := 0 ||| SPI_CPHA
def SPI_MODE_2 : Nat := SPI_CPOL ||| 0
def SPI_MODE_3 : Nat := SPI_CPOL ||| SPI_CPHA

/-- Enumeration `SPI_MODE` of `spi.h`. -/
inductive SPI_MODE
  | SPIMODE0 | SPIMODE1 | SPIMODE2 | SPIMODE3
deriving DecidableEq, Repr

def SPI_MODE.val : SPI_MODE → Nat
  | .SPIMODE0 => SPI_MODE_0
  | .SPIMODE1 => SPI_MODE_1
  | .SPIMODE2 => SPI_MODE_2
  | .SPIMODE3 => SPI_MODE_3

/-- Enumeration `SPI_SPEED` of `spi.h`. -/
inductive SPI_SPEED
  | S_1M | S_6_75M | S_8M | S_13_5M | S_27M
deriving DecidableEq, Repr

def SPI_SPEED.val : SPI_SPEED → Nat
  | .S_1M => 1000000
  | .S_6_75M => 6750000
  | .S_8M => 8000000
  | .S_13_5M => 13500000
  | .S_27M => 27000000

/-! ## Memory -/

/-- A non-null pointer: an object (block) and a byte offset into it. -/
structure Ptr where
  block : Nat
  off : Nat
deriving DecidableEq, Repr

/-- Memory: the list of live objects, each a list of bytes.  A C pointer value
is an `Option Ptr`, `none` being `NULL`. -/
abbrev Mem := List (List Nat)

/-- Read `len` bytes at `p`, `none` when the range leaves the object. -/
def Mem.read (m : Mem) (p : Ptr) (len : Nat) : Option (List Nat) :=
  match m.get? p.block with
  | none => none
  | some b => if p.off + len ≤ b.length then some ((b.drop p.off).take len) else none

/-- Write `bytes` at `p`, `none` when the range leaves the object. -/
def Mem.write (m : Mem) (p : Ptr) (bytes : List Nat) : Option Mem :=
  match m.get? p.block with
  | none => none
  | some b =>
    if p.off + bytes.length ≤ b.length then
      some (m.set p.block (b.take p.off ++ bytes ++ b.drop (p.off + bytes.length)))
    else none

/-- Creation of an automatic (stack) object with the given contents: a new
block after all live ones. -/
def Mem.alloc (m : Mem) (init : List Nat) : Mem × Ptr :=
  (m ++ [init], ⟨m.length, 0⟩)

/-- End of the lifetime of the automatic objects created since memory had
`n` objects. -/
def Mem.pop_to (m : Mem) (n : Nat) : Mem := m.take n

/-- The library function `memset(p, c, n)`. -/
def memset (m : Mem) (p : Ptr) (c : Nat) (n : Nat) : Option Mem :=
  m.write p (List.replicate n (c % 256))

/-! ## The operating system -/

/-- The structure `struct spi_ioc_transfer` of `<linux/spi/spidev.h>`.  The two
buffer fields hold pointers converted to integers, `none` standing for 0. -/
structure spi_ioc_transfer where
  tx_buf : Option Ptr
  rx_buf : Option Ptr
  len : Nat
  speed_hz : Nat
  delay_usecs : Nat
  bits_per_word : Nat
  cs_change : Nat
  tx_nbits : Nat
  rx_nbits : Nat
  word_delay_usecs : Nat
  pad : Nat
deriving DecidableEq, Repr

/-- The all-zero transfer structure, what `memset(xfer, 0, sizeof(xfer))`
leaves in every element of `xfer`. -/
def xfer_zero : spi_ioc_transfer :=
  { tx_buf := none, rx_buf := none, len := 0, speed_hz := 0, delay_usecs := 0,
    bits_per_word := 0, cs_change := 0, tx_nbits := 0, rx_nbits := 0,
    word_delay_usecs := 0, pad := 0 }

/-- A system call as the operating system sees it.  For the three
configuration requests the value is the one stored in the variable whose
address is passed.  For a transfer request, `tx` lists for each message the
bytes found at its transmit pointer (`none` when it has no transmit pointer).
For `write`, `data` are the bytes found in the buffer. -/
inductive Call
  | sys_open (path : String) (flags : Nat)
  | wr_mode (fd : Int) (mode : Nat)
  | wr_bits_per_word (fd : Int) (bits : Nat)
  | wr_max_speed_hz (fd : Int) (hz : Nat)
  | message (fd : Int) (msgs : List spi_ioc_transfer) (tx : List (Option (List Nat)))
  | sys_write (fd : Int) (data : List Nat)
  | sys_close (fd : Int)
deriving DecidableEq, Repr

/-- A system call together with the value it returned. -/
abbrev Event := Call × Int

/-- Diagnostics written by `printf` and `perror`. -/
inductive Diag
  | printf (text : String)
  | perror (tag : String)
deriving DecidableEq, Repr

/-- The environment of the program: the mocked operating system and the
implementation of automatic storage.
`ret` is the value returned by a call given the history of earlier calls,
`rx` gives, for message `i` of a transfer request, the bytes the device clocks
in (`none`: the receive buffer of that message is left untouched),
`junk` is the initial content of byte `i` of uninitialised storage,
`slack n` is the number of bytes of storage that follow a variable-length
array of `n` bytes in its frame and belong to no other object (0 when every
access outside the array is trapped). -/
structure Env where
  ret : List Event → Call → Int
  rx : List Event → Call → Nat → Option (List Nat)
  junk : Nat → Nat
  slack : Nat → Nat

/-- The state threaded through the program. -/
structure World where
  mem : Mem
  trace : List Event
  diag : List Diag
deriving DecidableEq, Repr

/-- Faults (undefined behaviour). -/
inductive Fault
  | out_of_bounds
deriving DecidableEq, Repr

deriving instance DecidableEq for Except

/-- A system call that accesses no user memory: ask the mock, record. -/
def sys_call (env : Env) (w : World) (c : Call) : Int × World :=
  (env.ret w.trace c, { w with trace := w.trace ++ [(c, env.ret w.trace c)] })

def emit (w : World) (d : Diag) : World := { w with diag := w.diag ++ [d] }

/-! ## `spi_init` -/

/-- The function `spi_init` of `spi.c`. -/
def spi_init (env : Env) (w : World) (spi_dev : String) : Int × World :=
  let (fd_spidev, w) := sys_call env w (.sys_open spi_dev O_RDWR)
  if fd_spidev < 0 then
    (-1, emit w (.printf ("open " ++ spi_dev ++ " err\n")))
  else
    let mode := SPI_MODE.SPIMODE0
    let (ret, w) := sys_call env w (.wr_mode fd_spidev (mode.val % 2 ^ 8))
    if ret < 0 then
      (-1, emit w (.printf "SPI_IOC_WR_MODE err\n"))
    else
      let spi_bits : Nat := 8
      let (ret, w) := sys_call env w (.wr_bits_per_word fd_spidev (spi_bits % 2 ^ 8))
      if ret < 0 then
        (-1, emit w (.printf "SPI_IOC_WR_BITS_PER_WORD err\n"))
      else
        let spi_speed := SPI_SPEED.S_8M.val % 2 ^ 32
        let (ret, w) := sys_call env w (.wr_max_speed_hz fd_spidev spi_speed)
        if ret < 0 then
          (-1, emit w (.printf "SPI_IOC_WR_MAX_SPEED_HZ err\n"))
        else
          (fd_spidev, w)

/-! ## The transfer request `SPI_IOC_MESSAGE(N)` and the `write` call -/

/-- What the driver reads: for each message the `len` bytes at its transmit
pointer.  `none` when some transmit range leaves its object. -/
def gather_tx (m : Mem) : List spi_ioc_transfer → Option (List (Option (List Nat)))
  | [] => some []
  | x :: xs =>
    match x.tx_buf with
    | none => (gather_tx m xs).map (fun rest => none :: rest)
    | some p =>
      match m.read p x.len, gather_tx m xs with
      | some bs, some rest => some (some bs :: rest)
      | _, _ => none

/-- Exactly `len` bytes out of what the device clocked in (missing bytes are
zero). -/
def fit (len : Nat) (bytes : List Nat) : List Nat :=
  (List.range len).map (fun j => bytes.getD j 0 % 256)

/-- What the driver writes: for each message with a receive pointer for which
the device delivers data, `len` bytes at that pointer.  `none` when some
receive range leaves its object. -/
def scatter_rx (rx : Nat → Option (List Nat)) (m : Mem) (i : Nat) :
    List spi_ioc_transfer → Option Mem
  | [] => some m
  | x :: xs =>
    match x.rx_buf, rx i with
    | some p, some bytes =>
      match m.write p (fit x.len bytes) with
      | none => none
      | some m1 => scatter_rx rx m1 (i + 1) xs
    | _, _ => scatter_rx rx m (i + 1) xs

/-- The call `ioctl(fd, SPI_IOC_MESSAGE(N), xfer)`, `msgs` being the first `N`
elements of `xfer`. -/
def sys_ioctl_message (env : Env) (w : World) (fd : Int) (msgs : List spi_ioc_transfer) :
    Except Fault (Int × World) :=
  match gather_tx w.mem msgs with
  | none => .error .out_of_bounds
  | some tx =>
    let c := Call.message fd msgs tx
    match scatter_rx (env.rx w.trace c) w.mem 0 msgs with
    | none => .error .out_of_bounds
    | some m1 =>
      .ok (env.ret w.trace c, { w with mem := m1, trace := w.trace ++ [(c, env.ret w.trace c)] })

/-- The call `write(fd, buf, count)`. -/
def sys_write (env : Env) (w : World) (fd : Int) (buf : Ptr) (count : Nat) :
    Except Fault (Int × World) :=
  match w.mem.read buf count with
  | none => .error .out_of_bounds
  | some data => .ok (sys_call env w (.sys_write fd data))

/-- Assignment to a field of element `i` of an array. -/
def modify_at {α : Type} (f : α → α) : Nat → List α → List α
  | _, [] => []
  | 0, x :: xs => f x :: xs
  | i + 1, x :: xs => x :: modify_at f i xs

/-! ## The transfer functions of `spi.c` -/

/-- The function `spi_write_then_read` of `spi.c`. -/
def spi_write_then_read (env : Env) (w : World) (fd_spidev : Nat) (send_buf : Option Ptr)
    (send_buf_len : Nat) (recv_buf : Option Ptr) (recv_buf_len : Nat) :
    Except Fault (Int × World) :=
  if send_buf = none ∨ recv_buf = none then
    .ok (-1, w)
  else if send_buf_len < 1 ∨ recv_buf_len < 1 then
    .ok (-1, w)
  else
    let xfer := List.replicate 2 xfer_zero
    let xfer := modify_at (fun x => { x with tx_buf := send_buf }) 0 xfer
    let xfer := modify_at (fun x => { x with len := send_buf_len }) 0 xfer
    let xfer := modify_at (fun x => { x with rx_buf := recv_buf }) 1 xfer
    let xfer := modify_at (fun x => { x with len := recv_buf_len }) 1 xfer
    match sys_ioctl_message env w (int_of_uint fd_spidev) (xfer.take 2) with
    | .error e => .error e
    | .ok (status, w) =>
      if status < 0 then
        .ok (-1, emit w (.perror "SPI_IOC_MESSAGE"))
      else
        .ok (0, w)

/-- The function `spi_write_byte_data` of `spi.c`. -/
def spi_write_byte_data (env : Env) (w : World) (fd_spidev : Nat) (data : Nat) :
    Except Fault (Int × World) :=
  let frame := w.mem.length
  let (m, buff) := w.mem.alloc [data % 256]
  match sys_write env { w with mem := m } (int_of_uint fd_spidev) buff 1 with
  | .error e => .error e
  | .ok (r, w) => .ok (int_of_ssize r, { w with mem := w.mem.pop_to frame })

/-- The function `spi_write_nbyte_data` of `spi.c`. -/
def spi_write_nbyte_data (env : Env) (w : World) (fd_spidev : Nat) (send_buf : Option Ptr)
    (send_buf_len : Nat) : Except Fault (Int × World) :=
  let frame := w.mem.length
  let (m, recv_buf) :=
    w.mem.alloc ((List.range (send_buf_len + env.slack send_buf_len)).map env.junk)
  if send_buf = none ∨ send_buf_len < 1 then
    .ok (-1, { w with mem := m.pop_to frame })
  else
    let xfer := List.replicate 2 xfer_zero
    match memset m recv_buf 0 sizeof_unsigned_int with
    | none => .error .out_of_bounds
    | some m =>
      let xfer := modify_at (fun x => { x with tx_buf := send_buf }) 0 xfer
      let xfer := modify_at (fun x => { x with rx_buf := some recv_buf }) 0 xfer
      let xfer := modify_at (fun x => { x with len := send_buf_len }) 0 xfer
      match sys_ioctl_message env { w with mem := m } (int_of_uint fd_spidev) (xfer.take 1) with
      | .error e => .error e
      | .ok (status, w) =>
        if status < 0 then
          .ok (-1, { emit w (.perror "SPI_IOC_MESSAGE") with mem := w.mem.pop_to frame })
        else
          .ok (0, { w with mem := w.mem.pop_to frame })

/-- The function `spi_exit` of `spi.c`.  Its parameter is an `unsigned int`,
so the comparison `fd_spidev >= 0` is a comparison of naturals. -/
def spi_exit (env : Env) (w : World) (fd_spidev : Nat) : World :=
  if fd_spidev ≥ 0 then
    (sys_call env w (.sys_close (int_of_uint fd_spidev))).2
  else
    w

/-! ## Observations on traces -/

/-- The events a run appended to the trace it started from. -/
def new_events (w w1 : World) : List Event := w1.trace.drop w.trace.length

/-- Effect of one event on the set of open descriptors: a successful `open`
adds the descriptor it returned, a successful `close` removes its argument. -/
def open_fds_step (fds : List Int) : Event → List Int
  | (.sys_open _ _, r) => if 0 ≤ r then fds ++ [r] else fds
  | (.sys_close fd, r) => if 0 ≤ r then fds.erase fd else fds
  | _ => fds

/-- The descriptors a trace leaves open. -/
def open_fds (t : List Event) : List Int := t.foldl open_fds_step []

/-- The close calls of a trace. -/
def close_calls (t : List Event) : List Int :=
  t.filterMap (fun e => match e.1 with | .sys_close fd => some fd | _ => none)

/-- The clock speeds applied by a trace. -/
def speeds_applied (t : List Event) : List Nat :=
  t.filterMap (fun e => match e.1 with | .wr_max_speed_hz _ hz => some hz | _ => none)

/-! ## Concrete environments -/

/-- A mock that opens descriptor 3, accepts every request, writes every byte
it is given and echoes the transmitted bytes of each message into the receive
buffer of the same message, on an implementation that reserves no storage
beyond a variable-length array and traps every access outside it. -/
def env_echo : Env where
  ret := fun _ c =>
    match c with
    | .sys_open _ _ => 3
    | .sys_write _ d => d.length
    | _ => 0
  rx := fun _ c i =>
    match c with
    | .message _ _ tx => tx.getD i none
    | _ => none
  junk := fun _ => 0xCC
  slack := fun _ => 0

/-- The echoing mock on an implementation that rounds the storage of a
variable-length array up to a multiple of 16 bytes and traps nothing. -/
def env_echo_padded : Env :=
  { env_echo with slack := fun n => (16 - n % 16) % 16 }

/-- A mock that opens descriptor 3 and rejects the mode request. -/
def env_reject_mode : Env where
  ret := fun _ c =>
    match c with
    | .sys_open _ _ => 3
    | .wr_mode _ _ => -1
    | _ => 0
  rx := fun _ _ _ => none
  junk := fun _ => 0
  slack := fun _ => 0

/-- A mock that opens descriptor 3, accepts mode and bits and rejects the
speed request. -/
def env_reject_speed : Env where
  ret := fun _ c =>
    match c with
    | .sys_open _ _ => 3
    | .wr_max_speed_hz _ _ => -1
    | _ => 0
  rx := fun _ _ _ => none
  junk := fun _ => 0
  slack := fun _ => 0

/-- A mock whose `write` transfers nothing and returns 0. -/
def env_write_zero : Env where
  ret := fun _ c =>
    match c with
    | .sys_open _ _ => 3
    | _ => 0
  rx := fun _ _ _ => none
  junk := fun _ => 0
  slack := fun _ => 0

/-- A mock without any device: `open` fails. -/
def env_no_device : Env where
  ret := fun _ c =>
    match c with
    | .sys_open _ _ => -1
    | _ => 0
  rx := fun _ _ _ => none
  junk := fun _ => 0
  slack := fun _ => 0

/-- A world without history whose only object is the buffer `0xAA, 0x55`. -/
def world_aa55 : World := { mem := [[0xAA, 0x55]], trace := [], diag := [] }

/-- A world without history holding an 8-byte buffer and a 4-byte buffer. -/
def world_two : World :=
  { mem := [[1, 2, 3, 4, 5, 6, 7, 8], [9, 9, 9, 9]], trace := [], diag := [] }

/-! ## Theorems about `spi_init` -/

/-- The five ways a run of `spi_init` can go, with the value returned and the
trace of each. -/
theorem spi_init_cases (env : Env) (w : World) (spi_dev : String) :
    ∃ (r0 r1 r2 r3 : Int),
      r0 = env.ret w.trace (Call.sys_open spi_dev O_RDWR) ∧
      ((r0 < 0 ∧ (spi_init env w spi_dev).1 = -1 ∧ (spi_init env w spi_dev).2.trace
          = w.trace ++ [(Call.sys_open spi_dev O_RDWR, r0)]) ∨
       (0 ≤ r0 ∧ r1 < 0 ∧ (spi_init env w spi_dev).1 = -1 ∧
        (spi_init env w spi_dev).2.trace
          = w.trace ++ [(Call.sys_open spi_dev O_RDWR, r0), (Call.wr_mode r0 0, r1)]) ∨
       (0 ≤ r0 ∧ 0 ≤ r1 ∧ r2 < 0 ∧ (spi_init env w spi_dev).1 = -1 ∧
        (spi_init env w spi_dev).2.trace
          = w.trace ++ [(Call.sys_open spi_dev O_RDWR, r0), (Call.wr_mode r0 0, r1),
              (Call.wr_bits_per_word r0 8, r2)]) ∨
       (0 ≤ r0 ∧ 0 ≤ r1 ∧ 0 ≤ r2 ∧ r3 < 0 ∧ (spi_init env w spi_dev).1 = -1 ∧
        (spi_init env w spi_dev).2.trace
          = w.trace ++ [(Call.sys_open spi_dev O_RDWR, r0), (Call.wr_mode r0 0, r1),
              (Call.wr_bits_per_word r0 8, r2), (Call.wr_max_speed_hz r0 8000000, r3)]) ∨
       (0 ≤ r0 ∧ 0 ≤ r1 ∧ 0 ≤ r2 ∧ 0 ≤ r3 ∧ (spi_init env w spi_dev).1 = r0 ∧
        (spi_init env w spi_dev).2.trace
          = w.trace ++ [(Call.sys_open spi_dev O_RDWR, r0), (Call.wr_mode r0 0, r1),
              (Call.wr_bits_per_word r0 8, r2), (Call.wr_max_speed_hz r0 8000000, r3)])) := by
  have hm : SPI_MODE.SPIMODE0.val % 2 ^ 8 = 0 := rfl
  have hb : (8 : Nat) % 2 ^ 8 = 8 := rfl
  have hs : SPI_SPEED.S_8M.val % 2 ^ 32 = 8000000 := rfl
  simp only [spi_init, sys_call, emit, hm, hb, hs]
  split_ifs with h0 h1 h2 h3
  · exact ⟨_, 0, 0, 0, rfl, Or.inl ⟨h0, rfl, rfl⟩⟩
  · exact ⟨_, _, 0, 0, rfl, Or.inr (Or.inl ⟨not_lt.mp h0, h1, rfl, by simp⟩)⟩
  · exact ⟨_, _, _, 0, rfl, Or.inr (Or.inr (Or.inl
      ⟨not_lt.mp h0, not_lt.mp h1, h2, rfl, by simp⟩))⟩
  · exact ⟨_, _, _, _, rfl, Or.inr (Or.inr (Or.inr (Or.inl
      ⟨not_lt.mp h0, not_lt.mp h1, not_lt.mp h2, h3, rfl, by simp⟩)))⟩
  · exact ⟨_, _, _, _, rfl, Or.inr (Or.inr (Or.inr (Or.inr
      ⟨not_lt.mp h0, not_lt.mp h1, not_lt.mp h2, not_lt.mp h3, rfl, by simp⟩)))⟩

/-- The value and the events of a run of `spi_init`, in terms of what the mock
answers to the four calls. -/
theorem spi_init_run (env : Env) (w : World) (spi_dev : String) (r0 r1 r2 r3 : Int)
    (h0 : r0 = env.ret w.trace (Call.sys_open spi_dev O_RDWR))
    (h1 : r1 = env.ret (w.trace ++ [(Call.sys_open spi_dev O_RDWR, r0)]) (Call.wr_mode r0 0))
    (h2 : r2 = env.ret (w.trace ++ [(Call.sys_open spi_dev O_RDWR, r0), (Call.wr_mode r0 0, r1)])
      (Call.wr_bits_per_word r0 8))
    (h3 : r3 = env.ret (w.trace ++ [(Call.sys_open spi_dev O_RDWR, r0), (Call.wr_mode r0 0, r1),
      (Call.wr_bits_per_word r0 8, r2)]) (Call.wr_max_speed_hz r0 8000000)) :
    (spi_init env w spi_dev).1
      = (if r0 < 0 then -1 else if r1 < 0 then -1 else if r2 < 0 then -1
         else if r3 < 0 then -1 else r0) ∧
    new_events w (spi_init env w spi_dev).2
      = (if r0 < 0 then [(Call.sys_open spi_dev O_RDWR, r0)]
         else if r1 < 0 then [(Call.sys_open spi_dev O_RDWR, r0), (Call.wr_mode r0 0, r1)]
         else if r2 < 0 then [(Call.sys_open spi_dev O_RDWR, r0), (Call.wr_mode r0 0, r1),
           (Call.wr_bits_per_word r0 8, r2)]
         else [(Call.sys_open spi_dev O_RDWR, r0), (Call.wr_mode r0 0, r1),
           (Call.wr_bits_per_word r0 8, r2), (Call.wr_max_speed_hz r0 8000000, r3)]) := by
  have hm : SPI_MODE.SPIMODE0.val % 2 ^ 8 = 0 := rfl
  have hb : (8 : Nat) % 2 ^ 8 = 8 := rfl
  have hs : SPI_SPEED.S_8M.val % 2 ^ 32 = 8000000 := rfl
  simp only [spi_init, sys_call, emit, hm, hb, hs, new_events, List.append_assoc,
    List.singleton_append, List.cons_append, List.nil_append, ← h0, ← h1, ← h2, ← h3]
  split_ifs <;> simp

/-- C4: with `r0`, `r1`, `r2`, `r3` what the mock answers to
`open(spi_dev, O_RDWR)` and to the mode, bits and speed requests on the
descriptor `r0`, each asked after the calls before it: `spi_init` issues the
open call, then, as long as the last call succeeded, the mode request, the bits
request and the speed request, and nothing after a call that failed (nothing
at all after a failed open).  It returns -1 exactly when one of the calls it
issued returned a negative value, and in every other case the descriptor that
open returned.  In particular when mode and bits are accepted and speed is
rejected it issues all four calls and returns -1. -/
theorem spi_init_fails_iff (env : Env) (w : World) (spi_dev : String) :
    ∃ (r0 r1 r2 r3 : Int),
      r0 = env.ret w.trace (Call.sys_open spi_dev O_RDWR) ∧
      r1 = env.ret (w.trace ++ [(Call.sys_open spi_dev O_RDWR, r0)]) (Call.wr_mode r0 0) ∧
      r2 = env.ret (w.trace ++ [(Call.sys_open spi_dev O_RDWR, r0), (Call.wr_mode r0 0, r1)])
        (Call.wr_bits_per_word r0 8) ∧
      r3 = env.ret (w.trace ++ [(Call.sys_open spi_dev O_RDWR, r0), (Call.wr_mode r0 0, r1),
        (Call.wr_bits_per_word r0 8, r2)]) (Call.wr_max_speed_hz r0 8000000) ∧
      (spi_init env w spi_dev).2.trace
        = w.trace ++ new_events w (spi_init env w spi_dev).2 ∧
      new_events w (spi_init env w spi_dev).2
        = (if r0 < 0 then [(Call.sys_open spi_dev O_RDWR, r0)]
           else if r1 < 0 then [(Call.sys_open spi_dev O_RDWR, r0), (Call.wr_mode r0 0, r1)]
           else if r2 < 0 then [(Call.sys_open spi_dev O_RDWR, r0), (Call.wr_mode r0 0, r1),
             (Call.wr_bits_per_word r0 8, r2)]
           else [(Call.sys_open spi_dev O_RDWR, r0), (Call.wr_mode r0 0, r1),
             (Call.wr_bits_per_word r0 8, r2), (Call.wr_max_speed_hz r0 8000000, r3)]) ∧
      ((spi_init env w spi_dev).1 = -1 ↔
        ∃ e ∈ new_events w (spi_init env w spi_dev).2, e.2 < 0) ∧
      ((spi_init env w spi_dev).1 = -1 ↔
        (r0 < 0 ∨ (0 ≤ r0 ∧ r1 < 0) ∨ (0 ≤ r0 ∧ 0 ≤ r1 ∧ r2 < 0) ∨
          (0 ≤ r0 ∧ 0 ≤ r1 ∧ 0 ≤ r2 ∧ r3 < 0))) ∧
      (∀ e ∈ (new_events w (spi_init env w spi_dev).2).dropLast, 0 ≤ e.2) ∧
      ((spi_init env w spi_dev).1 ≠ -1 → (spi_init env w spi_dev).1 = r0) ∧
      (0 ≤ r0 → 0 ≤ r1 → 0 ≤ r2 → r3 < 0 →
        (spi_init env w spi_dev).1 = -1 ∧
        new_events w (spi_init env w spi_dev).2
          = [(Call.sys_open spi_dev O_RDWR, r0), (Call.wr_mode r0 0, r1),
             (Call.wr_bits_per_word r0 8, r2), (Call.wr_max_speed_hz r0 8000000, r3)]) := by
  obtain ⟨r0, h0⟩ : ∃ r0, r0 = env.ret w.trace (Call.sys_open spi_dev O_RDWR) := ⟨_, rfl⟩
  obtain ⟨r1, h1⟩ : ∃ r1, r1 = env.ret (w.trace ++ [(Call.sys_open spi_dev O_RDWR, r0)])
    (Call.wr_mode r0 0) := ⟨_, rfl⟩
  obtain ⟨r2, h2⟩ : ∃ r2, r2 = env.ret (w.trace ++ [(Call.sys_open spi_dev O_RDWR, r0),
    (Call.wr_mode r0 0, r1)]) (Call.wr_bits_per_word r0 8) := ⟨_, rfl⟩
  obtain ⟨r3, h3⟩ : ∃ r3, r3 = env.ret (w.trace ++ [(Call.sys_open spi_dev O_RDWR, r0),
    (Call.wr_mode r0 0, r1), (Call.wr_bits_per_word r0 8, r2)])
    (Call.wr_max_speed_hz r0 8000000) := ⟨_, rfl⟩
  obtain ⟨hv, he⟩ := spi_init_run env w spi_dev r0 r1 r2 r3 h0 h1 h2 h3
  refine ⟨r0, r1, r2, r3, h0, h1, h2, h3, ?_, he, ?_, ?_, ?_, ?_, ?_⟩
  · obtain ⟨q0, q1, q2, q3, -, h⟩ := spi_init_cases env w spi_dev
    rcases h with ⟨-, -, ht⟩ | ⟨-, -, -, ht⟩ | ⟨-, -, -, -, ht⟩ | ⟨-, -, -, -, -, ht⟩ |
      ⟨-, -, -, -, -, ht⟩ <;> simp [new_events, ht]
  · rw [he, hv]
    split_ifs <;> simp <;> omega
  · rw [hv]
    split_ifs <;> (try simp) <;> omega
  · rw [he]
    split_ifs <;> simp <;> omega
  · rw [hv]
    split_ifs <;> simp
  · intro p0 p1 p2 p3
    rw [he, hv]
    split_ifs <;> (try simp) <;> omega

/-- The speed scenario of C4 at a concrete input: the mock accepts mode and
bits and rejects speed, `spi_init` returns -1 after the four calls. -/
theorem spi_init_reject_speed_run :
    spi_init env_reject_speed world_aa55 "/dev/spidev0.0"
      = (-1, { world_aa55 with
          trace := [(Call.sys_open "/dev/spidev0.0" O_RDWR, 3), (Call.wr_mode 3 0, 0),
            (Call.wr_bits_per_word 3 8, 0), (Call.wr_max_speed_hz 3 8000000, -1)],
          diag := [Diag.printf "SPI_IOC_WR_MAX_SPEED_HZ err\n"] }) := by
  decide

/-- C5: when the open call and every configuration request that `spi_init`
issues succeed, the run consists of the open call, returning a descriptor
`fd`, followed by exactly three requests on that same descriptor `fd`: mode
with `SPIMODE0` (0), bits per word with 8, maximum speed with `S_8M`
(8000000, which fits 32 bits), in this order, and `spi_init` returns `fd`.
Whatever the mock does, the only speed `spi_init` ever applies is `S_8M`. -/
theorem spi_init_configuration (env : Env) (w : World) (spi_dev : String) :
    ((∀ e ∈ new_events w (spi_init env w spi_dev).2, 0 ≤ e.2) →
      ∃ (fd r1 r2 r3 : Int),
        fd = env.ret w.trace (Call.sys_open spi_dev O_RDWR) ∧
        0 ≤ fd ∧ 0 ≤ r1 ∧ 0 ≤ r2 ∧ 0 ≤ r3 ∧
        (spi_init env w spi_dev).1 = fd ∧
        new_events w (spi_init env w spi_dev).2
          = [(Call.sys_open spi_dev O_RDWR, fd), (Call.wr_mode fd 0, r1),
             (Call.wr_bits_per_word fd 8, r2), (Call.wr_max_speed_hz fd 8000000, r3)]) ∧
    (∀ hz ∈ speeds_applied (new_events w (spi_init env w spi_dev).2),
      hz = SPI_SPEED.S_8M.val) ∧
    SPI_MODE.SPIMODE0.val = 0 ∧ SPI_SPEED.S_8M.val = 8000000 ∧
    SPI_SPEED.S_8M.val < 2 ^ 32 := by
  obtain ⟨r0, r1, r2, r3, hr0, h⟩ := spi_init_cases env w spi_dev
  refine ⟨?_, ?_, rfl, rfl, by decide⟩
  · intro hall
    rcases h with ⟨h0, hv, ht⟩ | ⟨h0, h1, hv, ht⟩ | ⟨h0, h1, h2, hv, ht⟩ |
      ⟨h0, h1, h2, h3, hv, ht⟩ | ⟨h0, h1, h2, h3, hv, ht⟩
    · have := hall (Call.sys_open spi_dev O_RDWR, r0) (by simp [new_events, ht])
      simp only at this
      omega
    · have := hall (Call.wr_mode r0 0, r1) (by simp [new_events, ht])
      simp only at this
      omega
    · have := hall (Call.wr_bits_per_word r0 8, r2) (by simp [new_events, ht])
      simp only at this
      omega
    · have := hall (Call.wr_max_speed_hz r0 8000000, r3) (by simp [new_events, ht])
      simp only at this
      omega
    · exact ⟨r0, r1, r2, r3, hr0, h0, h1, h2, h3, hv, by simp [new_events, ht]⟩
  · rcases h with ⟨h0, hv, ht⟩ | ⟨h0, h1, hv, ht⟩ | ⟨h0, h1, h2, hv, ht⟩ |
      ⟨h0, h1, h2, h3, hv, ht⟩ | ⟨h0, h1, h2, h3, hv, ht⟩ <;>
      simp [new_events, ht, speeds_applied, SPI_SPEED.val]

/-- C5, at a concrete input: against the accepting mock, opening
`/dev/spidev0.0` returns descriptor 3 and issues the three requests with 0, 8
and 8000000 on descriptor 3. -/
theorem spi_init_configuration_witness :
    (∀ e ∈ new_events world_aa55 (spi_init env_echo world_aa55 "/dev/spidev0.0").2, 0 ≤ e.2) ∧
    ∃ (fd r1 r2 r3 : Int),
      fd = env_echo.ret world_aa55.trace (Call.sys_open "/dev/spidev0.0" O_RDWR) ∧
      0 ≤ fd ∧ 0 ≤ r1 ∧ 0 ≤ r2 ∧ 0 ≤ r3 ∧
      (spi_init env_echo world_aa55 "/dev/spidev0.0").1 = fd ∧
      new_events world_aa55 (spi_init env_echo world_aa55 "/dev/spidev0.0").2
        = [(Call.sys_open "/dev/spidev0.0" O_RDWR, fd), (Call.wr_mode fd 0, r1),
           (Call.wr_bits_per_word fd 8, r2), (Call.wr_max_speed_hz fd 8000000, r3)] :=
  ⟨by decide, (spi_init_configuration env_echo world_aa55 "/dev/spidev0.0").1 (by decide)⟩

/-- The run of C5 at that input evaluated outright: descriptor 3 opened,
configured and returned. -/
theorem spi_init_accept_run :
    spi_init env_echo world_aa55 "/dev/spidev0.0"
      = (3, { world_aa55 with
          trace := [(Call.sys_open "/dev/spidev0.0" O_RDWR, 3), (Call.wr_mode 3 0, 0),
            (Call.wr_bits_per_word 3 8, 0), (Call.wr_max_speed_hz 3 8000000, 0)] }) := by
  decide

/-- C3: against a mock that opens descriptor 3 and rejects the mode request,
`spi_init` returns -1 having issued the open call and the mode request only:
no close call, descriptor 3 is still open.  The same holds when the speed
request is the one rejected, and no run of `spi_init` issues a close call. -/
theorem spi_init_leaks_descriptor :
    (spi_init env_reject_mode world_aa55 "/dev/spidev0.0").1 = -1 ∧
    (spi_init env_reject_mode world_aa55 "/dev/spidev0.0").2.trace
      = [(Call.sys_open "/dev/spidev0.0" O_RDWR, 3), (Call.wr_mode 3 0, -1)] ∧
    close_calls (spi_init env_reject_mode world_aa55 "/dev/spidev0.0").2.trace = [] ∧
    open_fds (spi_init env_reject_mode world_aa55 "/dev/spidev0.0").2.trace = [3] ∧
    (spi_init env_reject_speed world_aa55 "/dev/spidev0.0").1 = -1 ∧
    open_fds (spi_init env_reject_speed world_aa55 "/dev/spidev0.0").2.trace = [3] ∧
    (∀ (env : Env) (w : World) (spi_dev : String),
      close_calls (new_events w (spi_init env w spi_dev).2) = []) := by
  refine ⟨by decide, by decide, by decide, by decide, by decide, by decide, ?_⟩
  intro env w spi_dev
  obtain ⟨r0, r1, r2, r3, hr0, h⟩ := spi_init_cases env w spi_dev
  rcases h with ⟨h0, hv, ht⟩ | ⟨h0, h1, hv, ht⟩ | ⟨h0, h1, h2, hv, ht⟩ |
    ⟨h0, h1, h2, h3, hv, ht⟩ | ⟨h0, h1, h2, h3, hv, ht⟩ <;>
    simp [new_events, ht, close_calls]

/-! ## Theorems about argument validation -/

/-- C1: whatever the descriptor, the mock and the state, `spi_write_then_read`
returns -1 and the world it returns is the world it started from (same trace:
no system call is issued, same memory) when `send_buf` or `recv_buf` is `NULL`
or one of the two lengths is 0. -/
theorem spi_write_then_read_invalid (env : Env) (w : World) (fd_spidev : Nat)
    (send_buf : Option Ptr) (send_buf_len : Nat) (recv_buf : Option Ptr) (recv_buf_len : Nat)
    (h : send_buf = none ∨ recv_buf = none ∨ send_buf_len = 0 ∨ recv_buf_len = 0) :
    spi_write_then_read env w fd_spidev send_buf send_buf_len recv_buf recv_buf_len
        = .ok (-1, w) := by
  unfold spi_write_then_read
  by_cases h1 : send_buf = none ∨ recv_buf = none
  · rw [if_pos h1]
  · have h2 : send_buf_len < 1 ∨ recv_buf_len < 1 := by
      rcases h with h | h | h | h
      · exact absurd (Or.inl h) h1
      · exact absurd (Or.inr h) h1
      · exact Or.inl (by omega)
      · exact Or.inr (by omega)
    rw [if_neg h1, if_pos h2]

/-- C1, at a concrete input: a never-opened descriptor and an empty send. -/
theorem spi_write_then_read_invalid_witness :
    ((some (⟨0, 0⟩ : Ptr) = none ∨ some (⟨1, 0⟩ : Ptr) = none ∨ (0 : Nat) = 0 ∨ (4 : Nat) = 0)) ∧
    spi_write_then_read env_echo world_two 77 (some ⟨0, 0⟩) 0 (some ⟨1, 0⟩) 4
      = .ok (-1, world_two) :=
  ⟨by decide,
   spi_write_then_read_invalid env_echo world_two 77 (some ⟨0, 0⟩) 0 (some ⟨1, 0⟩) 4
      (by decide)⟩

/-- The scratch object disappears when the frame is popped. -/
theorem pop_alloc (m : Mem) (init : List Nat) : Mem.pop_to (m ++ [init]) m.length = m := by
  simp [Mem.pop_to]

/-- C2: whatever the descriptor, the mock and the state, `spi_write_nbyte_data`
returns -1 and the world it returns is the world it started from (same trace:
no system call is issued, same memory) when `send_buf` is `NULL` or
`send_buf_len` is 0. -/
theorem spi_write_nbyte_data_invalid (env : Env) (w : World) (fd_spidev : Nat)
    (send_buf : Option Ptr) (send_buf_len : Nat)
    (h : send_buf = none ∨ send_buf_len = 0) :
    spi_write_nbyte_data env w fd_spidev send_buf send_buf_len = .ok (-1, w) := by
  have h1 : send_buf = none ∨ send_buf_len < 1 := by
    rcases h with h | h
    · exact Or.inl h
    · exact Or.inr (by omega)
  simp only [spi_write_nbyte_data, Mem.alloc, h1, if_true, pop_alloc]

/-- C2, at a concrete input: a never-opened descriptor and a `NULL` buffer. -/
theorem spi_write_nbyte_data_invalid_witness :
    ((none : Option Ptr) = none ∨ (5 : Nat) = 0) ∧
    spi_write_nbyte_data env_echo world_two 77 none 5 = .ok (-1, world_two) :=
  ⟨by decide, spi_write_nbyte_data_invalid env_echo world_two 77 none 5 (by decide)⟩

/-! ## Theorems about `spi_exit` and `spi_write_byte_data` -/

/-- Every run of `spi_exit` issues exactly one close call, on its argument
converted to `int`. -/
theorem spi_exit_always_closes (env : Env) (w : World) (fd_spidev : Nat) :
    new_events w (spi_exit env w fd_spidev)
      = [(Call.sys_close (int_of_uint fd_spidev),
          env.ret w.trace (Call.sys_close (int_of_uint fd_spidev)))] := by
  simp [spi_exit, sys_call, new_events]

/-- C9: the value -1 that a failed `spi_init` returns becomes `2 ^ 32 - 1` in
the `unsigned int` parameter of `spi_exit`, passes the guard `fd_spidev >= 0`
and reaches the system as `close(-1)`.  A valid descriptor such as 3 is closed
once. -/
theorem spi_exit_closes_sentinel :
    (spi_init env_no_device world_aa55 "/dev/spidev9.9").1 = -1 ∧
    uint_of_int (spi_init env_no_device world_aa55 "/dev/spidev9.9").1 = 4294967295 ∧
    (spi_exit env_no_device (spi_init env_no_device world_aa55 "/dev/spidev9.9").2
        (uint_of_int (spi_init env_no_device world_aa55 "/dev/spidev9.9").1)).trace
      = [(Call.sys_open "/dev/spidev9.9" O_RDWR, -1), (Call.sys_close (-1), 0)] ∧
    close_calls (spi_exit env_echo world_aa55 4294967295).trace = [-1] ∧
    close_calls (spi_exit env_echo world_aa55 3).trace = [3] := by
  refine ⟨by decide, by decide, by decide, by decide, by decide⟩

/-- C8, refuted as stated: against a mock whose `write` returns 0 (nothing
written), `spi_write_byte_data` returns 0, not -1. -/
theorem spi_write_byte_data_zero_write :
    ∃ (r : Int) (w1 : World),
      spi_write_byte_data env_write_zero world_two 3 0xAB = .ok (r, w1) ∧
      new_events world_two w1 = [(Call.sys_write 3 [0xAB], 0)] ∧
      r = 0 ∧ r ≠ -1 :=
  ⟨0, { world_two with trace := [(Call.sys_write 3 [0xAB], 0)] },
    by decide, by decide, rfl, by decide⟩

/-- The conversion of the result of `write` to `int` keeps every value of the
range of `int`. -/
theorem int_of_ssize_id (r : Int) (h1 : -2 ^ 31 ≤ r) (h2 : r < 2 ^ 31) : int_of_ssize r = r := by
  unfold int_of_ssize int_of_uint
  have e : (((r % 2 ^ 32).toNat % 2 ^ 32 : Nat) : Int) = r % 2 ^ 32 := by omega
  split_ifs with h <;> omega

/-- C8, amended: `spi_write_byte_data` issues exactly one `write` call, on the
descriptor converted to `int`, of exactly one byte, the given value, leaves
memory as it was and returns what `write` returned converted to `int`: the
value itself when it fits an `int`, so -1 for an error, 0 when nothing was
written and 1 when the byte was written. -/
theorem spi_write_byte_data_passes_result (env : Env) (w : World) (fd_spidev : Nat)
    (data : Nat) (r : Int)
    (hr : r = env.ret w.trace (Call.sys_write (int_of_uint fd_spidev) [data % 256])) :
    (∃ w1, spi_write_byte_data env w fd_spidev data = .ok (int_of_ssize r, w1) ∧
      new_events w w1 = [(Call.sys_write (int_of_uint fd_spidev) [data % 256], r)] ∧
      w1.mem = w.mem) ∧
    (-2 ^ 31 ≤ r → r < 2 ^ 31 → int_of_ssize r = r) ∧
    (data < 256 → data % 256 = data) := by
  refine ⟨?_, int_of_ssize_id r, Nat.mod_eq_of_lt⟩
  subst hr
  simp [spi_write_byte_data, sys_write, Mem.alloc, Mem.read, sys_call, new_events, Mem.pop_to]

/-- C8 amended, at a concrete input: the byte 0xAB against the mock whose
`write` returns 0. -/
theorem spi_write_byte_data_passes_result_witness :
    (0 : Int) = env_write_zero.ret world_two.trace (Call.sys_write (int_of_uint 3) [0xAB % 256]) ∧
    ∃ w1, spi_write_byte_data env_write_zero world_two 3 0xAB = .ok (int_of_ssize 0, w1) ∧
      new_events world_two w1 = [(Call.sys_write (int_of_uint 3) [0xAB % 256], 0)] ∧
      w1.mem = world_two.mem :=
  ⟨by decide, (spi_write_byte_data_passes_result env_write_zero world_two 3 0xAB 0 (by decide)).1⟩

/-! ## Memory lemmas -/

theorem fit_length (len : Nat) (bytes : List Nat) : (fit len bytes).length = len := by
  simp [fit]

/-- A range that can be read can be written, and the write keeps the number
of objects. -/
theorem write_of_read (m : Mem) (p : Ptr) (n : Nat) (bs data : List Nat)
    (h : Mem.read m p n = some bs) (hl : data.length = n) :
    ∃ m1, Mem.write m p data = some m1 ∧ m1.length = m.length := by
  unfold Mem.read at h
  unfold Mem.write
  cases hg : m.get? p.block with
  | none =>
    rw [hg] at h
    simp at h
  | some b =>
    rw [hg] at h
    by_cases hb : p.off + n ≤ b.length
    · refine ⟨m.set p.block (b.take p.off ++ data ++ b.drop (p.off + data.length)), ?_, ?_⟩
      · simp only [hl, hb, if_true]
      · simp
    · simp [hb] at h

/-- Writing past the end of the object on top of memory is a fault. -/
theorem write_alloc_overflow (m : Mem) (b bytes : List Nat) (h : b.length < bytes.length) :
    Mem.write (m ++ [b]) ⟨m.length, 0⟩ bytes = none := by
  unfold Mem.write
  simp
  omega

/-! ## Theorems about the transfer functions -/

/-- C6: for a readable send range of `send_buf_len >= 1` bytes and a writable
receive range of `recv_buf_len >= 1` bytes, `spi_write_then_read` returns
(no fault) having issued exactly one system call, a transfer request of two
messages on the descriptor: message 0 transmits the send range and receives
nothing, message 1 receives into the receive range and transmits nothing, all
other fields are zero.  It returns -1 if the request returned a negative
status and 0 otherwise. -/
theorem spi_write_then_read_transfer (env : Env) (w : World) (fd_spidev : Nat)
    (send_buf : Ptr) (send_buf_len : Nat) (recv_buf : Ptr) (recv_buf_len : Nat)
    (sent old : List Nat) (c : Call) (status : Int)
    (hsl : 1 ≤ send_buf_len) (hrl : 1 ≤ recv_buf_len)
    (hs : w.mem.read send_buf send_buf_len = some sent)
    (hr : w.mem.read recv_buf recv_buf_len = some old)
    (hc : c = Call.message (int_of_uint fd_spidev)
      [{ tx_buf := some send_buf, rx_buf := none, len := send_buf_len, speed_hz := 0,
         delay_usecs := 0, bits_per_word := 0, cs_change := 0, tx_nbits := 0, rx_nbits := 0,
         word_delay_usecs := 0, pad := 0 },
       { tx_buf := none, rx_buf := some recv_buf, len := recv_buf_len, speed_hz := 0,
         delay_usecs := 0, bits_per_word := 0, cs_change := 0, tx_nbits := 0, rx_nbits := 0,
         word_delay_usecs := 0, pad := 0 }]
      [some sent, none])
    (hst : status = env.ret w.trace c) :
    ∃ w1, spi_write_then_read env w fd_spidev (some send_buf) send_buf_len
        (some recv_buf) recv_buf_len = .ok (if status < 0 then -1 else 0, w1) ∧
      new_events w w1 = [(c, status)] := by
  have h1 : ¬ ((some send_buf = none) ∨ (some recv_buf = none)) := by simp
  have h2 : ¬ (send_buf_len < 1 ∨ recv_buf_len < 1) := by omega
  unfold spi_write_then_read
  rw [if_neg h1, if_neg h2]
  simp only [List.replicate, modify_at, xfer_zero, List.take]
  unfold sys_ioctl_message
  simp only [gather_tx, hs, Option.map, ← hc, ← hst]
  have hsc : ∃ m1, scatter_rx (env.rx w.trace c) w.mem 0
      [{ tx_buf := some send_buf, rx_buf := none, len := send_buf_len, speed_hz := 0,
         delay_usecs := 0, bits_per_word := 0, cs_change := 0, tx_nbits := 0, rx_nbits := 0,
         word_delay_usecs := 0, pad := 0 },
       { tx_buf := none, rx_buf := some recv_buf, len := recv_buf_len, speed_hz := 0,
         delay_usecs := 0, bits_per_word := 0, cs_change := 0, tx_nbits := 0, rx_nbits := 0,
         word_delay_usecs := 0, pad := 0 }] = some m1 := by
    simp only [scatter_rx]
    cases env.rx w.trace c (0 + 1) with
    | none => exact ⟨_, rfl⟩
    | some data =>
      obtain ⟨m1, hm1, _⟩ := write_of_read w.mem recv_buf recv_buf_len old
        (fit recv_buf_len data) hr (fit_length _ _)
      exact ⟨m1, by simp only [hm1]⟩
  obtain ⟨m1, hm1⟩ := hsc
  rw [hm1]
  by_cases hneg : status < 0
  · refine ⟨emit { mem := m1, trace := w.trace ++ [(c, status)], diag := w.diag }
      (Diag.perror "SPI_IOC_MESSAGE"), ?_, ?_⟩
    · simp only [hneg, if_true]
    · simp [new_events, emit]
  · refine ⟨{ mem := m1, trace := w.trace ++ [(c, status)], diag := w.diag }, ?_, ?_⟩
    · simp only [hneg, if_false]
    · simp [new_events]

/-- C6, at a concrete input: 8 bytes sent, 4 bytes received on descriptor 3. -/
theorem spi_write_then_read_transfer_witness :
    ∃ w1, spi_write_then_read env_echo world_two 3 (some ⟨0, 0⟩) 8 (some ⟨1, 0⟩) 4
        = .ok (if (0 : Int) < 0 then -1 else 0, w1) ∧
      new_events world_two w1 = [(Call.message 3
        [{ tx_buf := some ⟨0, 0⟩, rx_buf := none, len := 8, speed_hz := 0,
           delay_usecs := 0, bits_per_word := 0, cs_change := 0, tx_nbits := 0, rx_nbits := 0,
           word_delay_usecs := 0, pad := 0 },
         { tx_buf := none, rx_buf := some ⟨1, 0⟩, len := 4, speed_hz := 0,
           delay_usecs := 0, bits_per_word := 0, cs_change := 0, tx_nbits := 0, rx_nbits := 0,
           word_delay_usecs := 0, pad := 0 }]
        [some [1, 2, 3, 4, 5, 6, 7, 8], none], 0)] :=
  spi_write_then_read_transfer env_echo world_two 3 ⟨0, 0⟩ 8 ⟨1, 0⟩ 4
    [1, 2, 3, 4, 5, 6, 7, 8] [9, 9, 9, 9] _ 0 (by decide) (by decide) (by decide) (by decide)
    rfl (by decide)

/-- The scratch array of `spi_write_nbyte_data` has `send_buf_len` bytes and
`memset` writes `sizeof(send_buf_len)` bytes into it: for a non-`NULL` buffer
of 1, 2 or 3 bytes the write leaves the array, and where the storage of the
array does not hold it either the run is a fault, before any system call. -/
theorem spi_write_nbyte_data_short_faults (env : Env) (w : World) (fd_spidev : Nat)
    (send_buf : Ptr) (send_buf_len : Nat) (h1 : 1 ≤ send_buf_len)
    (h2 : send_buf_len + env.slack send_buf_len < sizeof_unsigned_int) :
    spi_write_nbyte_data env w fd_spidev (some send_buf) send_buf_len
      = .error .out_of_bounds := by
  have hv : ¬ ((some send_buf = none) ∨ send_buf_len < 1) := by simp; omega
  have hm : memset (w.mem ++ [(List.range (send_buf_len + env.slack send_buf_len)).map env.junk])
      ⟨w.mem.length, 0⟩ 0 sizeof_unsigned_int = none := by
    unfold memset
    apply write_alloc_overflow
    simpa using h2
  simp only [spi_write_nbyte_data, Mem.alloc, hv, if_false, hm]

/-- The same transfer evaluated outright: value 0, one event, memory as
before. -/
theorem spi_write_nbyte_data_aa55_run :
    spi_write_nbyte_data env_echo_padded world_aa55 3 (some ⟨0, 0⟩) 2
      = .ok (0, { world_aa55 with trace := [(Call.message 3
        [{ tx_buf := some ⟨0, 0⟩, rx_buf := some ⟨1, 0⟩, len := 2, speed_hz := 0,
           delay_usecs := 0, bits_per_word := 0, cs_change := 0, tx_nbits := 0, rx_nbits := 0,
           word_delay_usecs := 0, pad := 0 }]
        [some [0xAA, 0x55]], 0)] }) := by
  decide

/-- C10: for `send_buf_len = 1` the scratch array has 1 byte and the size
passed to `memset`, `sizeof(send_buf_len)`, is 4: the zeroing does not stay
inside the array, the `memset` step is a fault and so is the run, as for
lengths 2 and 3. -/
theorem spi_write_nbyte_data_memset_exceeds_scratch :
    sizeof_unsigned_int = 4 ∧
    ¬ (sizeof_unsigned_int ≤ 1) ∧
    ((List.range 1).map env_echo.junk).length = 1 ∧
    memset (world_aa55.mem.alloc ((List.range 1).map env_echo.junk)).1
      (world_aa55.mem.alloc ((List.range 1).map env_echo.junk)).2 0 sizeof_unsigned_int = none ∧
    spi_write_nbyte_data env_echo world_aa55 3 (some ⟨0, 0⟩) 1 = .error .out_of_bounds ∧
    spi_write_nbyte_data env_echo world_two 3 (some ⟨0, 0⟩) 3 = .error .out_of_bounds := by
  refine ⟨rfl, by decide, by decide, by decide, by decide, by decide⟩

end Spi
